import Mathlib

/-!
Verification of the tritongrader grading harness against its specification.

The definitions below are a shallow embedding of the Python sources:
`tritongrader/formatter.py` (the `PrairielearnResultsFormatter`, in
particular its `cutter` truncation routine, score aggregation and the
per-kind test renderers), `tritongrader/autograder.py` (the execution
pipeline with its abort rules, the missing-files check and `add_test`),
and `tritongrader/test_case/realtime_test_case.py` (the dynamically
generated test case and its plugin loader).

Python strings are Lean `String`s (both are sequences of unicode scalar
values, and `text.encode("utf-8")`'s length is `String.utf8ByteSize`);
Python ints are `Int`/`Nat`; Python floats that only ever enter sums and
one exact ratio are modelled as `Rat`; `None`-able values are `Option`;
code that raises models the raise as `Except.error`.  Filesystem
existence checks are modelled by membership in the list of present file
names; the external command runner is modelled by its observable outcome
(exit status or a timeout signal).
-/

namespace Tritongrader

/-- The fixed warning prepended by `cutter` whenever truncation happens
(`formatter.py` line 389). -/
def tooLongWarn : String := "[WARN]: Text too long, truncated.\n"

/-- The fixed fallback message substituted by `cutter` when even the
truncated text is over budget (`formatter.py` line 387). -/
def tooLargeMsg : String := "Text is too large to display.\n"

/-- The warning prefixed when the input was undecodable bytes
(`formatter.py` line 337). -/
def binaryWarn : String := "[WARN]: Binary data detected.\n"

/-- Python line-boundary code points recognised by `str.splitlines`:
LF, VT, FF, CR, FS, GS, RS, NEL, LINE SEPARATOR, PARAGRAPH SEPARATOR. -/
def isLineBreak (c : Char) : Bool :=
  [10, 11, 12, 13, 28, 29, 30, 133, 8232, 8233].contains c.toNat

/-- Worker for `pySplitlines`: `cur` holds the current line's characters
in reverse.  A CR immediately followed by LF is a single boundary. -/
def splitAux : List Char → List Char → List String
  | [], cur => if cur.isEmpty then [] else [String.mk cur.reverse]
  | '\r' :: '\n' :: rest, cur => String.mk cur.reverse :: splitAux rest []
  | c :: rest, cur =>
      if isLineBreak c then String.mk cur.reverse :: splitAux rest []
      else splitAux rest (c :: cur)

/-- Python's `str.splitlines()` (`formatter.py` line 345): split at every
line boundary, boundaries are not kept, and no empty trailing line is
produced for a terminal boundary. -/
def pySplitlines (s : String) : List String := splitAux s.data []

/-- `line_size` from `formatter.py` lines 347-348: the line's UTF-8 byte
count plus one separator byte. -/
def lineSize (l : String) : Nat := l.utf8ByteSize + 1

/-- The greedy head-selection loop of `cutter` (`formatter.py` lines
350-358): keep consecutive lines while the accumulated byte count stays
within `budget`, and break at the first line that does not fit.  The
tail loop (lines 360-369) is the same loop run on the reversed list. -/
def greedyTake (budget : Nat) : List String → Nat → List String
  | [], _ => []
  | l :: ls, acc =>
      if acc + lineSize l ≤ budget then l :: greedyTake budget ls (acc + lineSize l)
      else []

/-- The three byte budgets carried by the formatter (`self.limitsize`,
`self.headsize`, `self.tailsize`, set in `export`, `formatter.py` lines
412-414). -/
structure CutterCfg where
  limitsize : Nat
  headsize : Nat
  tailsize : Nat
deriving DecidableEq, Repr

/-- `PrairielearnResultsFormatter.cutter` (`formatter.py` lines 324-390)
on an already-decoded string.  `isBinary` records whether the input was
undecodable bytes (in which case Python decodes permissively and sets
the binary-warning prefix; `text` here is the resulting string). -/
def cutterCore (cfg : CutterCfg) (isBinary : Bool) (text : String) : String :=
  let finalPrefix := if isBinary then binaryWarn else ""
  if text.utf8ByteSize ≤ cfg.limitsize then finalPrefix ++ text
  else
    let lines := pySplitlines text
    let headLines := greedyTake cfg.headsize lines 0
    let tailLines := (greedyTake cfg.tailsize lines.reverse 0).reverse
    let omitted : Int := (lines.length : Int) - headLines.length - tailLines.length
    let placeholderLine :=
      if omitted > 0 then "...(omitted " ++ toString omitted ++ " lines)..." else ""
    let truncatedParts :=
      if placeholderLine ≠ "" then headLines ++ [placeholderLine] ++ tailLines
      else headLines ++ tailLines.drop headLines.length
    let finalText := String.intercalate "\n" (truncatedParts.filter (fun p => p != ""))
    let finalText' := if finalText.utf8ByteSize > cfg.limitsize then tooLargeMsg else finalText
    finalPrefix ++ (tooLongWarn ++ finalText')

/-- `cutter` on its `Optional[str]` argument: `None` becomes `""`
(`formatter.py` lines 325-326). -/
def cutter (cfg : CutterCfg) : Option String → String
  | none => ""
  | some t => cutterCore cfg false t

/-! Specification-side definitions for the truncation shape (claim C3).
These follow the spec's words ("the maximal prefix of whole lines whose
cumulative byte size ... fits within the head budget", and symmetrically
for the suffix), to be compared with the source-side `cutterCore`. -/

/-- Cumulative byte size of the first `k` lines, each line counted as its
encoded size plus one separator byte. -/
def prefixBytes (ls : List String) (k : Nat) : Nat :=
  ((ls.take k).map lineSize).sum

/-- All prefix lengths of `ls` whose cumulative byte size, on top of the
already-consumed `acc` bytes, fits within `budget`. -/
def fitLens (budget acc : Nat) (ls : List String) : List Nat :=
  (List.range (ls.length + 1)).filter (fun k => acc + prefixBytes ls k ≤ budget)

/-- The length of the maximal fitting prefix: the largest `k` such that
the first `k` lines' cumulative byte size fits within the budget. -/
def maxFitLen (budget acc : Nat) (ls : List String) : Nat :=
  (fitLens budget acc ls).foldr max 0

/-- Spec wording: the maximal prefix of whole lines fitting the head
budget. -/
def specHead (cfg : CutterCfg) (ls : List String) : List String :=
  ls.take (maxFitLen cfg.headsize 0 ls)

/-- Spec wording: the maximal suffix of whole lines (scanned from the
end, order preserved) fitting the tail budget. -/
def specTail (cfg : CutterCfg) (ls : List String) : List String :=
  (ls.reverse.take (maxFitLen cfg.tailsize 0 ls.reverse)).reverse

/-- The omitted-line count of the spec: total lines minus kept head
lines minus kept tail lines (an integer, since head and tail may
overlap). -/
def specOmitted (cfg : CutterCfg) (text : String) : Int :=
  let ls := pySplitlines text
  (ls.length : Int) - (specHead cfg ls).length - (specTail cfg ls).length

/-- The placeholder line of the spec, stating the omitted-line count. -/
def specPlaceholder (cfg : CutterCfg) (text : String) : String :=
  "...(omitted " ++ toString (specOmitted cfg text) ++ " lines)..."

/-- The assembled truncated text per the spec's words: head lines, the
placeholder line, tail lines, joined by single separators. -/
def specAssembled (cfg : CutterCfg) (text : String) : String :=
  let ls := pySplitlines text
  String.intercalate "\n"
    (specHead cfg ls ++ [specPlaceholder cfg text] ++ specTail cfg ls)

/-- Claim C3's description of the truncation routine on over-budget
text: the assembled head/placeholder/tail text with the fixed warning
line prepended. -/
def cutterSpecC3 (cfg : CutterCfg) (text : String) : String :=
  tooLongWarn ++ specAssembled cfg text

/-! ### Test results and the execution pipeline (`autograder.py`) -/

/-- `TestResultBase` (`test_case/test_case_base.py` lines 1-8): one
record per test case; `runningTime` is `None` until measured. -/
structure TestResult where
  score : Rat := 0
  passed : Bool := false
  timedOut : Bool := false
  error : Bool := false
  runningTime : Option Rat := none
  hasRun : Bool := false
deriving DecidableEq, Repr

/-- A pipeline-level view of one test case in the autograder's ordered
list.  `isMissingFilesCheck` / `isBuildCheck` model the identity
comparisons `test == self.missing_files_check_test_case` /
`test == self.build_test_case` in `Autograder._execute`; `passes`
abstracts the variant-specific outcome that the test's `execute()`
computes when it is actually invoked. -/
structure PipeTC where
  isMissingFilesCheck : Bool := false
  isBuildCheck : Bool := false
  earlyStop : Bool := false
  passes : Bool := false
  result : TestResult := {}
deriving DecidableEq, Repr

/-- One test case's `execute()` as observed by the pipeline: it marks
its own result as run and records the variant-specific pass/fail
outcome. -/
def executeTC (t : PipeTC) : PipeTC :=
  { t with result := { t.result with hasRun := true, passed := t.passes } }

/-- The abort rule applied by `Autograder._execute` (lines 221-231)
right after a test executes: stop on a failed missing-files check, a
failed build check, or a failed early-stop test. -/
def stopAfter (t : PipeTC) : Bool :=
  (t.isMissingFilesCheck && !t.result.passed)
    || (t.isBuildCheck && !t.result.passed)
    || (t.earlyStop && !t.result.passed)

/-- The test loop of `Autograder._execute` (lines 218-231): execute each
test in order; once the abort rule fires, the remaining tests are left
untouched. -/
def runTests : List PipeTC → List PipeTC
  | [] => []
  | t :: ts =>
      let t' := executeTC t
      if stopAfter t' then t' :: ts else t' :: runTests ts

/-- Whether a test, once executed, fires the abort rule. -/
def triggersAbort (t : PipeTC) : Bool :=
  (t.isMissingFilesCheck || t.isBuildCheck || t.earlyStop) && !t.passes

/-- Python truthiness of an `Optional[str]`: `None` and `""` are falsy
(the `if self.reference_path and self.reference_build_command` checks in
`autograder.py` lines 234 and 259). -/
def pyTruthy : Option String → Bool
  | none => false
  | some s => !(s == "")

/-- The reference-build configuration of an `Autograder`, together with
the observable outcome of running the reference build command through
the external command runner: `none` models `subprocess.TimeoutExpired`,
`some c` an exit with status `c`. -/
structure AGConfig where
  referencePath : Option String := none
  referenceBuildCommand : Option String := none
  refBuildOutcome : Option Int := some 0
deriving DecidableEq, Repr

/-- `Autograder._execute_reference` (lines 233-253): a no-op unless both
the reference path and the reference build command are truthy; raises on
a non-zero exit status or on a timeout of the reference build. -/
def executeReference (cfg : AGConfig) : Except String Unit :=
  if !(pyTruthy cfg.referencePath) || !(pyTruthy cfg.referenceBuildCommand) then .ok ()
  else
    match cfg.refBuildOutcome with
    | none => .error "reference build time out!"
    | some c => if c != 0 then .error "reference build failed!" else .ok ()

/-- The observable outcome of `Autograder.execute`: the (possibly
updated) test-case list, and the fatal error if one was raised. -/
structure AGRun where
  tests : List PipeTC
  fatal : Option String
deriving DecidableEq, Repr

/-- `Autograder.execute` (lines 256-274): when both reference settings
are truthy, build the reference first — a raise there propagates and no
test case executes; then run the test loop. -/
def autograderExecute (cfg : AGConfig) (ts : List PipeTC) : AGRun :=
  if pyTruthy cfg.referencePath && pyTruthy cfg.referenceBuildCommand then
    match executeReference cfg with
    | .error e => { tests := ts, fatal := some e }
    | .ok () => { tests := runTests ts, fatal := none }
  else { tests := runTests ts, fatal := none }

/-! ### The missing-files check (`autograder.py` lines 86-105) -/

/-- `CustomTestResult`: a `TestResultBase` plus the `output` text that
the custom check function writes (`none` until written). -/
structure CustomResult extends TestResult where
  output : Option String := none
deriving DecidableEq, Repr

/-- The closure `check_missing_files` built by
`Autograder.create_missing_files_check_test_case`: `present` models the
set of file names that exist under the submission root
(`os.path.exists(os.path.join(self.submission_path, filename))`). -/
def checkMissingFiles (present required : List String) (r : CustomResult) : CustomResult :=
  let missingFiles := required.filter (fun f => !(present.contains f))
  if missingFiles.isEmpty then
    { r with output := some "All required files have been located.", passed := true }
  else
    { r with output := some (String.intercalate "\n" ("Missing files" :: missingFiles)),
             passed := false }

/-- The data of the `CustomTestCase` returned by
`create_missing_files_check_test_case`: name, point value, and check
function. -/
structure MissingFilesTC where
  name : String
  pointValue : Rat
  check : CustomResult → CustomResult

/-- `Autograder.create_missing_files_check_test_case` (lines 86-105). -/
def createMissingFilesCheckTestCase (present required : List String) : MissingFilesTC :=
  { name := "Missing Files Check", pointValue := 0,
    check := checkMissingFiles present required }

/-! ### The realtime test case (`test_case/realtime_test_case.py`) -/

/-- The environment one `RealtimeTestCase.execute()` runs in: whether
`importlib` can locate the generator module (with a loader), whether the
module has a `generate` attribute, what the generator populates, and the
observable outcomes of the reference and submission runs. -/
structure RTEnv where
  specLocated : Bool := true
  hasGenerate : Bool := true
  genSetsStdin : Bool := true
  genSetsArgv : Bool := true
  haveLiteralExpected : Bool := false
  refRunTimedOut : Bool := false
  runTimedOut : Bool := false
  stdoutCheck : Bool := true
  stderrCheck : Bool := true
  expExitStatus : Option Int := some 0
  actualExitStatus : Int := 0
deriving DecidableEq, Repr

/-- `RealtimeTestCase.execute` (lines 184-238) together with
`load_generate_func` (lines 83-106) and `write_out_err` (lines 137-167):
returns the test's mutated result and `Except.error` exactly when an
exception escapes `execute()` into the pipeline.  `load_generate_func`
raises when the module spec or loader cannot be obtained or the module
lacks `generate`; `execute` raises when the generated context lacks
`stdin` or `argv`; `write_out_err` raises when the reference run times
out; a submission-run timeout is caught and recorded on the result. -/
def rtExecute (env : RTEnv) (pointValue : Rat) (r0 : TestResult) : TestResult × Except String Unit :=
  let r := { r0 with hasRun := true }
  if !env.specLocated then (r, .error "Failed to load generator")
  else if !env.hasGenerate then (r, .error "Failed to load generator() in module")
  else if !env.genSetsStdin then (r, .error "Failed to load stdin")
  else if !env.genSetsArgv then (r, .error "Failed to load argv")
  else if !env.haveLiteralExpected && env.refRunTimedOut then
    (r, .error "Reference timed out")
  else if env.runTimedOut then ({ r with timedOut := true }, .ok ())
  else
    let status :=
      match env.expExitStatus with
      | none => true
      | some e => e == env.actualExitStatus
    let passed := env.stdoutCheck && env.stderrCheck && status
    ({ r with passed := passed, score := if passed then pointValue else 0 }, .ok ())

/-! ### Report formatting (`formatter.py`) -/

/-- The fixed runtime-error banner of `basic_io_output` and
`realtime_output` (lines 121 and 202). -/
def ioErrorMsg : String :=
  "=== Unexpected autograder runtime error!  Please notify your instructors. ==="

/-- Python's `str` on an `Optional[int]` (used for
`str(test.exp_exit_status)`). -/
def pyStr : Option Int → String
  | none => "None"
  | some n => toString n

/-- The attributes of an executed I/O (or realtime) test case that
`basic_io_output` / `realtime_output` read.  `timeoutStr` and
`runningTimeStr` carry the already-rendered `{test.timeout}` and
`{running_time:.2f}` interpolations (Python float formatting is an
external primitive). -/
structure IOView where
  hasRun : Bool := true
  hasRunner : Bool := true
  error : Bool := false
  timedOut : Bool := false
  passed : Bool := false
  hidden : Bool := false
  hiddenMsg : String := "hidden test"
  timeoutStr : String := "1"
  runningTimeStr : String := "0.00"
  command : Option String := none
  testInput : Option String := none
  expectedStdout : Option String := none
  expectedStderr : Option String := none
  expExitStatus : Option Int := none
  actualStdout : Option String := none
  actualStderr : Option String := none
  exitStatus : Int := 0
deriving DecidableEq, Repr

/-- `PrairielearnResultsFormatter.basic_io_output` (lines 115-181); the
identically-structured `realtime_output` (lines 196-262) is the same
function on the realtime view. -/
def basicIoOutput (verbose : Bool) (cfg : CutterCfg) (t : IOView) : String :=
  if !t.hasRun || !t.hasRunner then "This test was not run."
  else if t.error then
    let output := String.intercalate "\n"
      [ioErrorMsg,
       "=== stdout ===", cutter cfg t.actualStdout,
       "=== stderr ===", cutter cfg t.actualStderr]
    if t.hidden then ioErrorMsg else output
  else if t.timedOut then
    let output := String.intercalate "\n"
      (["Test case timed out with limit = " ++ t.timeoutStr ++ ".",
        "=== expected stdout ===", cutter cfg t.expectedStdout,
        "=== expected stderr ===", cutter cfg t.expectedStderr,
        "=== expected exit status ===", cutterCore cfg false (pyStr t.expExitStatus),
        "=== your stdout ===", cutter cfg t.actualStdout,
        "=== your stderr ===", cutter cfg t.actualStderr])
    if t.hidden then t.hiddenMsg else output
  else
    let statusStr := if t.passed then "PASSED" else "FAILED"
    let summary := [statusStr ++ " in " ++ t.runningTimeStr ++ " ms."]
    let summary :=
      if verbose then
        summary
          ++ ["=== test command ===", cutter cfg t.command]
          ++ (match t.testInput with
              | some ti => ["=== test input ===", cutterCore cfg false ti]
              | none => [])
          ++ ["=== expected stdout ===", cutter cfg t.expectedStdout,
              "=== expected stderr ===", cutter cfg t.expectedStderr,
              "=== expected exit status ===", cutterCore cfg false (pyStr t.expExitStatus)]
          ++ (if !t.passed then
                ["=== your stdout ===", cutter cfg t.actualStdout,
                 "=== your stderr ===", cutter cfg t.actualStderr,
                 "=== your exit status ===", cutterCore cfg false (toString t.exitStatus)]
              else [])
      else summary
    if t.hidden then t.hiddenMsg else String.intercalate "\n" summary

/-- The attributes of a custom test case read by `format_custom_test`. -/
structure CustomView where
  hasRun : Bool := true
  hidden : Bool := false
  hiddenMsg : String := "hidden test"
  output : Option String := none
deriving DecidableEq, Repr

/-- `PrairielearnResultsFormatter.format_custom_test` (lines 299-305):
the `"output"` field of the emitted object. -/
def formatCustomTest (cfg : CutterCfg) (t : CustomView) : String :=
  if !t.hasRun then "This test was not run."
  else cutter cfg t.output

/-- The attributes of a basic (build) test case read by
`format_basic_test`. -/
structure BasicView where
  hasRunner : Bool := true
  hidden : Bool := false
  hiddenMsg : String := "hidden test"
  command : Option String := none
  exitStatus : Int := 0
  stdout : Option String := none
  stderr : Option String := none
deriving DecidableEq, Repr

/-- `PrairielearnResultsFormatter.format_basic_test` (lines 276-297):
the `"output"` field of the emitted object. -/
def formatBasicTest (verbose : Bool) (cfg : CutterCfg) (t : BasicView) : String :=
  if !t.hasRunner then "This test was not run."
  else
    let summary :=
      ["=== test command ===", cutter cfg t.command,
       "=== exit status ===", cutterCore cfg false (toString t.exitStatus)]
    let summary :=
      if verbose then
        summary ++ ["=== stdout ===", cutter cfg t.stdout, "=== stderr ===", cutter cfg t.stderr]
      else summary
    String.intercalate "\n" summary

/-! ### Score aggregation (`formatter.py` lines 307-406) -/

/-- What `format_test`, `get_total_score` and `get_full_score` read from
one test case: its (already prefixed) name, its point value (`None` for
tests carrying no point value), and its result record. -/
structure FmtTC where
  name : String
  pointValue : Option Rat := some 1
  result : TestResult := {}
deriving DecidableEq, Repr

/-- `get_total_score` (lines 318-319): the sum of `result.score` over
all test cases. -/
def getTotalScore (ts : List FmtTC) : Rat :=
  (ts.map (fun t => t.result.score)).sum

/-- `get_full_score` (lines 321-322): the sum of point values over the
test cases whose point value is not `None`. -/
def getFullScore (ts : List FmtTC) : Rat :=
  (ts.filterMap (fun t => t.pointValue)).sum

/-- The score-carrying part of the per-test object built by
`format_test` (lines 307-316): name, awarded points, and the maximum
points when the test carries a point value. -/
structure ReportItem where
  name : String
  points : Rat
  maxPoints : Option Rat
deriving DecidableEq, Repr

/-- `format_test`'s score fields for one test case. -/
def formatTestEntry (t : FmtTC) : ReportItem :=
  { name := t.name, points := t.result.score, maxPoints := t.pointValue }

/-- The aggregate report assembled by `execute`. -/
structure Report where
  score : Rat
  tests : List ReportItem
deriving DecidableEq, Repr

/-- `PrairielearnResultsFormatter.execute` (lines 392-406): the score is
the ratio of total to full score, overwritten with `0` afterwards when
`hide_points` is set; the per-test entries are built from the unchanged
test cases.  (Python raises `ZeroDivisionError` when the full score is
`0`; theorems below therefore assume a non-zero full score.) -/
def formatterExecute (hidePoints : Bool) (ts : List FmtTC) : Report :=
  let score := getTotalScore ts / getFullScore ts
  { score := if hidePoints then 0 else score,
    tests := ts.map formatTestEntry }

/-- Claim C5's aggregate-score formula: awarded points summed over the
tests carrying a point value only, divided by the full score. -/
def claimAggregateC5 (ts : List FmtTC) : Rat :=
  ((ts.filter (fun t => t.pointValue.isSome)).map (fun t => t.result.score)).sum
    / getFullScore ts

/-! ### `Autograder.add_test` (lines 122-127) -/

/-- The name-bearing part of any test case handed to `add_test`. -/
structure NamedTC where
  name : String
deriving DecidableEq, Repr

/-- The `add_test`-relevant state of an `Autograder`: its name and its
ordered test-case list. -/
structure AGTests where
  name : String
  testCases : List NamedTC
deriving DecidableEq, Repr

/-- `Autograder.add_test`: mutate the test case's name to carry the
autograder-name prefix, then append it to the ordered list.  All test
cases enter the list through this method: the auto-created missing-files
and build checks (`__init__` lines 77 and 84) and every bulk-loader
`add` (e.g. `RealtimeTestCaseBulkLoader.add` line 275). -/
def addTest (ag : AGTests) (t : NamedTC) : AGTests :=
  { ag with testCases := ag.testCases ++ [{ t with name := ag.name ++ ": " ++ t.name }] }

/-! ## Theorems -/

/-- UTF-8 byte length is additive over string append. -/
theorem utf8ByteSize_append (a b : String) :
    (a ++ b).utf8ByteSize = a.utf8ByteSize + b.utf8ByteSize := by
  show String.utf8Len (a ++ b).data = String.utf8Len a.data + String.utf8Len b.data
  rw [String.data_append]
  exact String.utf8Len_append _ _

/-- Prepending the empty string is the identity. -/
theorem empty_append_str (t : String) : "" ++ t = t := by
  apply String.ext
  rw [String.data_append]
  rfl

/-- C4: For every input whose UTF-8 byte length is at most the
configured limit, the truncation routine returns it unchanged, with the
binary-data warning prefixed exactly when the input was undecodable
bytes, and with no prefix at all on ordinary string input. -/
theorem cutter_small_input_id (cfg : CutterCfg) (b : Bool) (text : String)
    (h : text.utf8ByteSize ≤ cfg.limitsize) :
    cutterCore cfg b text = (if b then binaryWarn else "") ++ text ∧
      cutterCore cfg false text = text := by
  constructor
  · simp [cutterCore, h]
  · simp [cutterCore, h, empty_append_str]

/-- Witness for C4 at a concrete input. -/
theorem cutter_small_input_id_witness :
    ("hello" : String).utf8ByteSize ≤ (100 : Nat) ∧
      cutterCore ⟨100, 10, 10⟩ false "hello" = "hello" :=
  ⟨by decide, (cutter_small_input_id ⟨100, 10, 10⟩ false "hello" (by decide)).2⟩

/-- Counterexample to C1 as stated: with limit 10 (head and tail budgets
1) and a 12-byte input, the truncated text is over budget, the fallback
substitutes the fixed "too large to display" message, and the returned
string — the fallback message with the truncation warning prepended — is
64 bytes, exceeding the 10-byte limit. -/
theorem cutter_output_within_limit_cex :
    ("aaaaaaaaaaaa" : String).utf8ByteSize > 10 ∧
      cutterCore ⟨10, 1, 1⟩ false "aaaaaaaaaaaa" = tooLongWarn ++ tooLargeMsg ∧
      (cutterCore ⟨10, 1, 1⟩ false "aaaaaaaaaaaa").utf8ByteSize = 64 := by
  decide

/-- C1 (amended): after the final fallback substitution the truncated
body never exceeds max(limit, |fallback message|); the string actually
returned additionally carries the fixed truncation warning (and the
binary warning for undecodable input), so its byte length is bounded by
that maximum plus the warning lengths, not by the limit itself. -/
theorem fallback_branch_bound (cfg : CutterCfg) (pre X : String) :
    (pre ++ (tooLongWarn ++ (if X.utf8ByteSize > cfg.limitsize then tooLargeMsg else X))).utf8ByteSize
      ≤ pre.utf8ByteSize + tooLongWarn.utf8ByteSize + max cfg.limitsize tooLargeMsg.utf8ByteSize := by
  rw [utf8ByteSize_append, utf8ByteSize_append]
  have hbody : (if X.utf8ByteSize > cfg.limitsize then tooLargeMsg else X).utf8ByteSize ≤
      max cfg.limitsize tooLargeMsg.utf8ByteSize := by
    split
    · exact Nat.le_max_right _ _
    · exact le_trans (Nat.le_of_not_lt (by assumption)) (Nat.le_max_left _ _)
  omega

theorem cutter_output_within_limit (cfg : CutterCfg) (b : Bool) (text : String) :
    (cutterCore cfg b text).utf8ByteSize ≤
      max cfg.limitsize tooLargeMsg.utf8ByteSize + tooLongWarn.utf8ByteSize
        + (if b then binaryWarn.utf8ByteSize else 0) := by
  by_cases h : text.utf8ByteSize ≤ cfg.limitsize
  · have hm : text.utf8ByteSize ≤ max cfg.limitsize tooLargeMsg.utf8ByteSize :=
      le_trans h (Nat.le_max_left _ _)
    cases b <;> simp [cutterCore, h, utf8ByteSize_append, empty_append_str] <;> omega
  · simp only [cutterCore, if_neg h]
    refine le_trans (fallback_branch_bound cfg _ _) ?_
    cases b <;> simp [show ("" : String).utf8ByteSize = 0 from rfl] <;> omega

/-- C7: the missing-files check passes iff every required filename is
present under the submission root; on failure its output is the header
line followed by exactly the missing names (membership in that list
characterises exactly the required-but-absent files); the test case is
created with zero points and the check never touches the score. -/
theorem missing_files_check_spec (present required : List String) (r : CustomResult) :
    ((checkMissingFiles present required r).passed = true ↔ ∀ f ∈ required, f ∈ present)
      ∧ ((checkMissingFiles present required r).passed = false →
          (checkMissingFiles present required r).output
            = some (String.intercalate "\n"
                ("Missing files" :: required.filter (fun f => !(present.contains f)))))
      ∧ (∀ f, f ∈ required.filter (fun f => !(present.contains f))
            ↔ f ∈ required ∧ f ∉ present)
      ∧ (createMissingFilesCheckTestCase present required).pointValue = 0
      ∧ (checkMissingFiles present required r).score = r.score := by
  have hchar : ((required.filter (fun f => !(present.contains f))).isEmpty = true)
      ↔ ∀ f ∈ required, f ∈ present := by
    rw [List.isEmpty_iff, List.filter_eq_nil_iff]
    constructor
    · intro hm f hf
      simpa using hm f hf
    · intro hm f hf
      simpa using hm f hf
  by_cases hm : (required.filter (fun f => !(present.contains f))).isEmpty = true
  · refine ⟨?_, ?_, fun f => by simp [List.mem_filter], rfl, ?_⟩
    · simp only [checkMissingFiles, if_pos hm]
      simpa using hchar.mp hm
    · intro hp
      exfalso
      simp only [checkMissingFiles, if_pos hm] at hp
      simp at hp
    · simp only [checkMissingFiles, if_pos hm]
  · refine ⟨?_, ?_, fun f => by simp [List.mem_filter], rfl, ?_⟩
    · simp only [checkMissingFiles, if_neg hm]
      exact ⟨fun h => absurd h (by simp), fun h => absurd (hchar.mpr h) hm⟩
    · intro _
      simp only [checkMissingFiles, if_neg hm]
    · simp only [checkMissingFiles, if_neg hm]

/-- Witness for C7: submission containing only a.c, with a.c and b.c
required — the check fails, lists b.c, and carries zero points. -/
theorem missing_files_check_spec_witness :
    (checkMissingFiles ["a.c"] ["a.c", "b.c"] {}).passed = false ∧
      (checkMissingFiles ["a.c"] ["a.c", "b.c"] {}).output
        = some (String.intercalate "\n"
            ("Missing files" :: List.filter (fun f => !(List.contains ["a.c"] f)) ["a.c", "b.c"])) ∧
      (createMissingFilesCheckTestCase ["a.c"] ["a.c", "b.c"]).pointValue = 0 := by
  refine ⟨by decide, ?_, (missing_files_check_spec ["a.c"] ["a.c", "b.c"] {}).2.2.2.1⟩
  exact (missing_files_check_spec ["a.c"] ["a.c", "b.c"] {}).2.1 (by decide)

/-- C8 is violated by the code: when the generator module cannot be
located, or lacks the generate entry point, the realtime test's
execute() raises and the exception escapes into the pipeline, while the
test's own result keeps error = false (the ERRORED state is never
recorded).  This theorem evaluates the embedded execute() at both
failing inputs. -/
theorem realtime_loader_failure_escapes :
    ((rtExecute { specLocated := false } 1 {}).1.error = false
        ∧ (rtExecute { specLocated := false } 1 {}).1.hasRun = true
        ∧ (rtExecute { specLocated := false } 1 {}).2
            = Except.error "Failed to load generator")
      ∧ ((rtExecute { hasGenerate := false } 1 {}).1.error = false
          ∧ (rtExecute { hasGenerate := false } 1 {}).2
              = Except.error "Failed to load generator() in module") := by
  refine ⟨⟨rfl, rfl, rfl⟩, rfl, rfl⟩

/-- Counterexample to C9 as stated: a hidden custom test that has run
with diagnostic output "secret" is rendered with that output, not with
its placeholder message — format_custom_test never consults the hidden
flag. -/
theorem hidden_placeholder_scope_cex :
    ({ hasRun := true, hidden := true, hiddenMsg := "hidden test",
       output := some "secret" } : CustomView).hidden = true ∧
      formatCustomTest ⟨5000, 500, 500⟩
        { hasRun := true, hidden := true, hiddenMsg := "hidden test",
          output := some "secret" } = "secret" ∧
      ("secret" : String) ≠ "hidden test" := by
  refine ⟨rfl, ?_, by decide⟩
  decide

/-- C9 (amended): the hidden-placeholder substitution happens only in
the plain-text I/O and realtime renderings, and there only for the
timed-out and finished outcomes; an errored hidden test shows the
generic runtime-error banner instead of its own placeholder, and the
custom and basic renderings ignore the hidden flag and placeholder
entirely. -/
theorem hidden_placeholder_scope (verbose : Bool) (cfg : CutterCfg) (t : IOView)
    (h1 : t.hasRun = true) (h2 : t.hasRunner = true) (h3 : t.hidden = true) :
    basicIoOutput verbose cfg t = (if t.error then ioErrorMsg else t.hiddenMsg)
      ∧ (∀ (c : CustomView) (b : Bool) (m : String),
          formatCustomTest cfg { c with hidden := b, hiddenMsg := m }
            = formatCustomTest cfg c)
      ∧ (∀ (bt : BasicView) (b : Bool) (m : String),
          formatBasicTest verbose cfg { bt with hidden := b, hiddenMsg := m }
            = formatBasicTest verbose cfg bt) := by
  refine ⟨?_, fun c b m => rfl, fun bt b m => rfl⟩
  cases he : t.error <;> cases ht : t.timedOut <;>
    simp [basicIoOutput, h1, h2, h3, he, ht]

/-- Witness for C9's amended statement: a hidden, errored I/O test is
rendered as the generic error banner. -/
theorem hidden_placeholder_scope_witness :
    basicIoOutput true ⟨5000, 500, 500⟩ { error := true, hidden := true }
        = (if ({ error := true, hidden := true } : IOView).error then ioErrorMsg
           else ({ error := true, hidden := true } : IOView).hiddenMsg)
      ∧ formatCustomTest ⟨5000, 500, 500⟩
          { ({ output := some "x" } : CustomView) with hidden := true, hiddenMsg := "m" }
          = formatCustomTest ⟨5000, 500, 500⟩ { output := some "x" } := by
  have h := hidden_placeholder_scope true ⟨5000, 500, 500⟩
    { error := true, hidden := true } rfl rfl rfl
  exact ⟨h.1, h.2.1 { output := some "x" } true "m"⟩

/-- C10: add_test mutates the added test's name to carry the
autograder-name prefix and appends it; in particular, if every test in
the list already carries the prefix (as all of them entered through
add_test), this is preserved, and the newly appended test's name is the
autograder name, a colon and a space, then its original name. -/
theorem add_test_name_prefix (ag : AGTests) (t : NamedTC)
    (h : ∀ u ∈ ag.testCases, ∃ orig, u.name = ag.name ++ ": " ++ orig) :
    (∀ u ∈ (addTest ag t).testCases, ∃ orig, u.name = ag.name ++ ": " ++ orig)
      ∧ (addTest ag t).testCases.getLast? = some ⟨ag.name ++ ": " ++ t.name⟩
      ∧ (addTest ag t).testCases.length = ag.testCases.length + 1 := by
  refine ⟨?_, by simp [addTest], by simp [addTest]⟩
  intro u hu
  rw [addTest, List.mem_append] at hu
  rcases hu with hu | hu
  · exact h u hu
  · simp only [List.mem_singleton] at hu
    exact ⟨t.name, by rw [hu]⟩

/-- When every test without a point value has zero awarded points, the
sum of scores over all tests agrees with the sum restricted to the
tests carrying a point value. -/
theorem total_score_eq_filtered (ts : List FmtTC)
    (h : ∀ t ∈ ts, t.pointValue = none → t.result.score = 0) :
    getTotalScore ts
      = ((ts.filter (fun t => t.pointValue.isSome)).map (fun t => t.result.score)).sum := by
  induction ts with
  | nil => rfl
  | cons t ts ih =>
      have ih' := ih (fun u hu => h u (List.mem_cons_of_mem t hu))
      by_cases hp : t.pointValue.isSome
      · simp [getTotalScore, List.filter_cons, hp, ← ih', getTotalScore]
      · have hz : t.result.score = 0 :=
          h t (List.mem_cons_self t ts) (Option.not_isSome_iff_eq_none.mp hp)

        simp [getTotalScore, List.filter_cons, hp, hz, ← ih', getTotalScore]

/-- Counterexample to C5 as stated: a custom test carrying no point
value but awarded 5 points (its callback is free to set any score) and
a 10-point test awarded 0.  The code divides the sum over ALL tests by
the full score and reports 1/2, while the claim's sum over only the
point-value-carrying tests gives 0. -/
theorem aggregate_score_spec_cex :
    (formatterExecute false
        [{ name := "custom", pointValue := none,
           result := { score := 5, passed := true, hasRun := true } },
         { name := "t1", pointValue := some 10,
           result := { hasRun := true } }]).score = 1 / 2
      ∧ claimAggregateC5
          [{ name := "custom", pointValue := none,
             result := { score := 5, passed := true, hasRun := true } },
           { name := "t1", pointValue := some 10,
             result := { hasRun := true } }] = 0
      ∧ (1 : Rat) / 2 ≠ 0 := by
  refine ⟨?_, ?_, by norm_num⟩
  · show (getTotalScore _ / getFullScore _ : Rat) = 1 / 2
    norm_num [getTotalScore, getFullScore, List.filterMap_cons]
  · show (_ / getFullScore _ : Rat) = 0
    norm_num [getFullScore, List.filterMap_cons]

/-- C5 (amended): the aggregate report score is the sum of awarded
points over ALL tests divided by the sum of possible points over the
tests carrying a point value (the two numerators agree whenever every
test without a point value has zero awarded points, which is the claim's
reading); enabling hide-points forces the displayed aggregate score to 0
while the per-test entries — in particular each test's awarded points —
are exactly those of the non-hidden report.  The full score is assumed
non-zero, since the code divides by it unconditionally. -/
theorem aggregate_score_spec (ts : List FmtTC) (_hfull : getFullScore ts ≠ 0) :
    (formatterExecute false ts).score = getTotalScore ts / getFullScore ts
      ∧ ((∀ t ∈ ts, t.pointValue = none → t.result.score = 0) →
          (formatterExecute false ts).score = claimAggregateC5 ts)
      ∧ (formatterExecute true ts).score = 0
      ∧ (formatterExecute true ts).tests = (formatterExecute false ts).tests
      ∧ (formatterExecute true ts).tests.map (fun i => i.points)
          = ts.map (fun t => t.result.score) := by
  refine ⟨rfl, ?_, rfl, rfl, ?_⟩
  · intro h
    show getTotalScore ts / getFullScore ts = claimAggregateC5 ts
    rw [claimAggregateC5, total_score_eq_filtered ts h]
  · simp [formatterExecute, formatTestEntry]

/-- Witness for C5's amended statement on a concrete two-test run. -/
theorem aggregate_score_spec_witness :
    getFullScore
        [{ name := "t1", pointValue := some 10, result := { score := 10, hasRun := true } },
         { name := "t2", pointValue := some 5, result := { hasRun := true } }] ≠ 0
      ∧ (formatterExecute false
          [{ name := "t1", pointValue := some 10, result := { score := 10, hasRun := true } },
           { name := "t2", pointValue := some 5, result := { hasRun := true } }]).score
          = getTotalScore
              [{ name := "t1", pointValue := some 10, result := { score := 10, hasRun := true } },
               { name := "t2", pointValue := some 5, result := { hasRun := true } }]
            / getFullScore
              [{ name := "t1", pointValue := some 10, result := { score := 10, hasRun := true } },
               { name := "t2", pointValue := some 5, result := { hasRun := true } }]
      ∧ (formatterExecute true
          [{ name := "t1", pointValue := some 10, result := { score := 10, hasRun := true } },
           { name := "t2", pointValue := some 5, result := { hasRun := true } }]).score = 0 := by
  have hf : getFullScore
      [{ name := "t1", pointValue := some 10, result := { score := 10, hasRun := true } },
       { name := "t2", pointValue := some 5, result := { hasRun := true } }] ≠ (0 : Rat) := by
    norm_num [getFullScore, List.filterMap_cons]
  have h := aggregate_score_spec
    [{ name := "t1", pointValue := some 10, result := { score := 10, hasRun := true } },
     { name := "t2", pointValue := some 5, result := { hasRun := true } }] hf
  exact ⟨hf, h.1, h.2.2.1⟩

/-- A test that fires the abort rule still fires it after being
executed (execute records the pass/fail outcome the rule reads). -/
theorem stopAfter_executeTC (t : PipeTC) (ht : triggersAbort t = true) :
    stopAfter (executeTC t) = true := by
  rcases t with ⟨a, b, c, p, r⟩
  simp only [triggersAbort, Bool.and_eq_true, Bool.or_eq_true] at ht
  obtain ⟨hor, hp⟩ := ht
  simp only [stopAfter, executeTC, Bool.or_eq_true, Bool.and_eq_true]
  rcases hor with h | h | h <;> simp_all

/-- Dropping a list's length plus n more elements from it appended to
another list drops n from the second list. -/
theorem drop_length_add_append (l₁ l₂ : List PipeTC) (n : Nat) :
    (l₁ ++ l₂).drop (l₁.length + n) = l₂.drop n := by
  induction l₁ with
  | nil => simp
  | cons a l ih => simp [Nat.succ_add, ih]

/-- Core of the abort invariant: once a triggering test is reached, the
test loop leaves everything after it untouched — whether the trigger is
that test itself or an even earlier one. -/
theorem runTests_drop_trigger : ∀ (pre : List PipeTC) (t : PipeTC) (post : List PipeTC),
    triggersAbort t = true →
    (runTests (pre ++ t :: post)).drop (pre.length + 1) = post := by
  intro pre
  induction pre with
  | nil =>
      intro t post ht
      simp only [List.nil_append, runTests, stopAfter_executeTC t ht, if_true,
        List.length_nil, Nat.zero_add, List.drop_succ_cons, List.drop_zero]
  | cons p pre ih =>
      intro t post ht
      simp only [List.cons_append, runTests, List.length_cons]
      by_cases hp : stopAfter (executeTC p) = true
      · rw [if_pos hp]
        show (executeTC p :: (pre ++ t :: post)).drop (pre.length + 1 + 1) = post
        rw [List.drop_succ_cons]
        have h1 := drop_length_add_append pre (t :: post) 1
        simp only [List.drop_succ_cons, List.drop_zero] at h1
        exact h1
      · rw [if_neg hp]
        show (executeTC p :: runTests (pre ++ t :: post)).drop (pre.length + 1 + 1) = post
        rw [List.drop_succ_cons]
        exact ih t post ht

/-- C2: for every ordered test-case list and every abort trigger (a
failing missing-files check, failing build check, or failing early-stop
test at some position), the pipeline loop never invokes execute() on any
test strictly after the trigger: those list entries come out identical
to how they went in, so each of them retains has_run = false. -/
theorem pipeline_abort_skips_rest (pre : List PipeTC) (t : PipeTC) (post : List PipeTC)
    (ht : triggersAbort t = true)
    (hpost : ∀ u ∈ post, u.result.hasRun = false) :
    (runTests (pre ++ t :: post)).drop (pre.length + 1) = post
      ∧ ∀ u ∈ (runTests (pre ++ t :: post)).drop (pre.length + 1),
          u.result.hasRun = false := by
  have h := runTests_drop_trigger pre t post ht
  exact ⟨h, by rw [h]; exact hpost⟩

/-- Witness for C2: an early-stop test that fails, followed by one more
test, which the pipeline leaves unexecuted. -/
theorem pipeline_abort_skips_rest_witness :
    triggersAbort { earlyStop := true, passes := false } = true
      ∧ (∀ u ∈ ([{ }] : List PipeTC), u.result.hasRun = false)
      ∧ (runTests (([] : List PipeTC)
            ++ { earlyStop := true, passes := false } :: ([{ }] : List PipeTC))).drop
          (List.length ([] : List PipeTC) + 1) = ([{ }] : List PipeTC) := by
  refine ⟨by decide, by decide, ?_⟩
  exact (pipeline_abort_skips_rest [] { earlyStop := true, passes := false }
    ([{ }] : List PipeTC) (by decide) (by decide)).1

/-- C6: when both a reference path and a reference build command are
configured (truthy), a reference build that exits non-zero or times out
makes the pipeline raise with no test case executed (the list is
returned untouched, so every has_run flag is preserved); when either
setting is unconfigured, the reference phase is a no-op and the test
loop runs normally. -/
theorem reference_build_gate (cfg : AGConfig) (ts : List PipeTC) :
    (pyTruthy cfg.referencePath = true → pyTruthy cfg.referenceBuildCommand = true →
        (cfg.refBuildOutcome = none ∨ ∃ c, cfg.refBuildOutcome = some c ∧ c ≠ 0) →
        (∃ e, autograderExecute cfg ts = { tests := ts, fatal := some e }))
      ∧ ((pyTruthy cfg.referencePath = false ∨ pyTruthy cfg.referenceBuildCommand = false) →
          autograderExecute cfg ts = { tests := runTests ts, fatal := none }) := by
  constructor
  · intro h1 h2 h3
    rcases h3 with h3 | ⟨c, h3, hc⟩
    · exact ⟨"reference build time out!",
        by simp [autograderExecute, executeReference, h1, h2, h3]⟩
    · exact ⟨"reference build failed!",
        by simp [autograderExecute, executeReference, h1, h2, h3, hc]⟩
  · intro h
    rcases h with h | h <;> simp [autograderExecute, h]

/-- Witness for C6: a configured reference whose build exits with status
2 aborts the run with the tests untouched; an unconfigured reference is
a no-op. -/
theorem reference_build_gate_witness :
    (∃ e, autograderExecute
        { referencePath := some "/ref", referenceBuildCommand := some "make",
          refBuildOutcome := some 2 } [{ }]
        = { tests := [{ }], fatal := some e })
      ∧ autograderExecute
          { referencePath := none, referenceBuildCommand := some "make",
            refBuildOutcome := none } [{ }]
          = { tests := runTests [{ }], fatal := none } := by
  constructor
  · exact (reference_build_gate
      { referencePath := some "/ref", referenceBuildCommand := some "make",
        refBuildOutcome := some 2 } [{ }]).1 rfl rfl (Or.inr ⟨2, rfl, by decide⟩)
  · exact (reference_build_gate
      { referencePath := none, referenceBuildCommand := some "make",
        refBuildOutcome := none } [{ }]).2 (Or.inl rfl)

/-- The cumulative byte size of one more line is the line's size plus
the rest. -/
theorem prefixBytes_cons_succ (l : String) (ls : List String) (k : Nat) :
    prefixBytes (l :: ls) (k + 1) = lineSize l + prefixBytes ls k := by
  simp [prefixBytes, List.take_succ_cons]

/-- A fold of max over a list of zeros is zero. -/
theorem foldr_max_eq_zero {L : List Nat} (h : ∀ x ∈ L, x = 0) : L.foldr max 0 = 0 := by
  induction L with
  | nil => rfl
  | cons a l ih =>
      rw [List.foldr_cons, h a (List.mem_cons_self a l),
        ih (fun x hx => h x (List.mem_cons_of_mem a hx))]
      rfl

/-- Folding max over a shifted nonempty list shifts the maximum. -/
theorem foldr_max_map_succ : ∀ (L : List Nat), L ≠ [] →
    (L.map (· + 1)).foldr max 0 = L.foldr max 0 + 1
  | [], h => absurd rfl h
  | [a], _ => by simp
  | a :: b :: t, _ => by
      rw [List.map_cons, List.foldr_cons, List.foldr_cons,
        foldr_max_map_succ (b :: t) (by simp), Nat.succ_max_succ]

/-- Recurrence for the maximal fitting prefix length: if the first line
fits on top of the bytes already consumed, it is kept and the maximum
continues on the rest; otherwise no nonempty prefix fits. -/
theorem maxFitLen_cons (B acc : Nat) (l : String) (ls : List String) :
    maxFitLen B acc (l :: ls) =
      if acc + lineSize l ≤ B then maxFitLen B (acc + lineSize l) ls + 1 else 0 := by
  by_cases hfit : acc + lineSize l ≤ B
  · rw [if_pos hfit]
    unfold maxFitLen fitLens
    rw [show (l :: ls).length + 1 = (ls.length + 1) + 1 from rfl, List.range_succ_eq_map,
      List.filter_cons]
    have hp0 : (decide (acc + prefixBytes (l :: ls) 0 ≤ B)) = true := by
      simp only [prefixBytes, List.take_zero, List.map_nil, List.sum_nil, Nat.add_zero,
        decide_eq_true_iff]
      omega
    rw [List.filter_map]
    have hpred : ((fun k => decide (acc + prefixBytes (l :: ls) k ≤ B)) ∘ (· + 1))
        = fun k => decide (acc + lineSize l + prefixBytes ls k ≤ B) := by
      funext k
      simp only [Function.comp_apply, prefixBytes_cons_succ, decide_eq_decide]
      omega
    rw [hpred]
    simp only [hp0, if_true, List.foldr_cons, Nat.zero_max]
    apply foldr_max_map_succ
    apply List.ne_nil_of_mem (a := 0)
    rw [List.mem_filter]
    refine ⟨List.mem_range.mpr (Nat.succ_pos _), ?_⟩
    simp only [prefixBytes, List.take_zero, List.map_nil, List.sum_nil, Nat.add_zero,
      decide_eq_true_iff]
    exact hfit
  · rw [if_neg hfit]
    apply foldr_max_eq_zero
    intro x hx
    rw [fitLens, List.mem_filter] at hx
    obtain ⟨hxr, hxp⟩ := hx
    by_contra hx0
    obtain ⟨k, rfl⟩ := Nat.exists_eq_succ_of_ne_zero hx0
    rw [decide_eq_true_iff, prefixBytes_cons_succ] at hxp
    omega

/-- The source's greedy break-at-first-overflow loop computes exactly
the spec's maximal fitting prefix of whole lines. -/
theorem greedyTake_eq_take : ∀ (ls : List String) (B acc : Nat),
    greedyTake B ls acc = ls.take (maxFitLen B acc ls)
  | [], B, acc => by simp [greedyTake]
  | l :: ls, B, acc => by
      rw [maxFitLen_cons]
      by_cases h : acc + lineSize l ≤ B
      · rw [if_pos h]
        simp only [greedyTake, if_pos h, List.take_succ_cons]
        rw [greedyTake_eq_take ls B (acc + lineSize l)]
      · rw [if_neg h]
        simp [greedyTake, h]

/-- The omitted-lines placeholder is never the empty string. -/
theorem placeholder_ne_empty (s t : String) : "...(omitted " ++ s ++ t ≠ "" := by
  intro he
  have hd := congrArg String.data he
  simp only [String.data_append] at hd
  have h1 := (List.append_eq_nil.mp (List.append_eq_nil.mp hd).1).1
  exact absurd h1 (by decide)

/-- Counterexample to C3 as stated: with limit 10 (head and tail budgets
1), a single 12-byte line exceeds the limit, but the assembled
head/placeholder/tail text is itself over budget, so the routine returns
the fallback message rather than the claimed head, placeholder and tail
lines with the warning prepended. -/
theorem cutter_truncation_shape_cex :
    (10 : Nat) < ("aaaaaaaaaaaa" : String).utf8ByteSize ∧
      cutterCore ⟨10, 1, 1⟩ false "aaaaaaaaaaaa" ≠ cutterSpecC3 ⟨10, 1, 1⟩ "aaaaaaaaaaaa" := by
  decide

/-- C3 (amended): for every text whose UTF-8 byte length exceeds the
limit, provided the omitted-line count is positive, no line of the text
is empty (the code's join silently drops empty parts), and the assembled
text fits within the limit (otherwise the fallback message is
substituted), the truncation routine returns exactly the warning line
followed by the maximal fitting prefix of whole lines, the placeholder
line stating the omitted-line count, and the maximal fitting suffix of
whole lines in original order. -/
theorem cutter_truncation_shape (cfg : CutterCfg) (text : String)
    (hbig : cfg.limitsize < text.utf8ByteSize)
    (hne : ∀ l ∈ pySplitlines text, l ≠ "")
    (hom : 0 < specOmitted cfg text)
    (hfit : (specAssembled cfg text).utf8ByteSize ≤ cfg.limitsize) :
    cutterCore cfg false text = cutterSpecC3 cfg text := by
  have hnle : ¬ text.utf8ByteSize ≤ cfg.limitsize := Nat.not_le.mpr hbig
  have hhead : greedyTake cfg.headsize (pySplitlines text) 0
      = specHead cfg (pySplitlines text) := by
    rw [specHead, greedyTake_eq_take]
  have htail : (greedyTake cfg.tailsize (pySplitlines text).reverse 0).reverse
      = specTail cfg (pySplitlines text) := by
    rw [specTail, greedyTake_eq_take]
  have homitted : ((pySplitlines text).length : Int)
      - (specHead cfg (pySplitlines text)).length
      - (specTail cfg (pySplitlines text)).length = specOmitted cfg text := rfl
  have hom' : specOmitted cfg text > 0 := hom
  have hph : ("...(omitted " ++ toString (specOmitted cfg text) ++ " lines)...") ≠ "" :=
    placeholder_ne_empty _ _
  have hparts : ∀ a ∈ specHead cfg (pySplitlines text)
      ++ ["...(omitted " ++ toString (specOmitted cfg text) ++ " lines)..."]
      ++ specTail cfg (pySplitlines text), (a != "") = true := by
    intro a ha
    rw [bne_iff_ne]
    rcases List.mem_append.mp ha with ha | ha
    · rcases List.mem_append.mp ha with ha | ha
      · exact hne a (List.take_subset _ _ ha)
      · rw [List.mem_singleton] at ha
        rw [ha]
        exact hph
    · apply hne a
      have h2 := List.take_subset _ _ (List.mem_reverse.mp ha)
      exact List.mem_reverse.mp h2
  simp only [cutterCore, if_neg hnle, hhead, htail, homitted, if_pos hom', if_pos hph]
  rw [List.filter_eq_self.mpr hparts]
  have hasm : String.intercalate "\n"
      (specHead cfg (pySplitlines text)
        ++ ["...(omitted " ++ toString (specOmitted cfg text) ++ " lines)..."]
        ++ specTail cfg (pySplitlines text)) = specAssembled cfg text := rfl
  rw [hasm, if_neg (Nat.not_lt.mpr hfit)]
  simp only [Bool.false_eq_true, if_false]
  rw [empty_append_str]
  rfl

/-- Witness for C3's amended statement: 12 lines of 8 bytes (107 bytes
total) truncated with limit 100 and head/tail budgets 10 keep one line
on each side and a placeholder reporting 10 omitted lines. -/
theorem cutter_truncation_shape_witness :
    (100 : Nat) < (String.intercalate "\n" (List.replicate 12 "aaaaaaaa")).utf8ByteSize
      ∧ (∀ l ∈ pySplitlines (String.intercalate "\n" (List.replicate 12 "aaaaaaaa")), l ≠ "")
      ∧ 0 < specOmitted ⟨100, 10, 10⟩ (String.intercalate "\n" (List.replicate 12 "aaaaaaaa"))
      ∧ (specAssembled ⟨100, 10, 10⟩
          (String.intercalate "\n" (List.replicate 12 "aaaaaaaa"))).utf8ByteSize ≤ 100
      ∧ cutterCore ⟨100, 10, 10⟩ false (String.intercalate "\n" (List.replicate 12 "aaaaaaaa"))
          = cutterSpecC3 ⟨100, 10, 10⟩ (String.intercalate "\n" (List.replicate 12 "aaaaaaaa")) := by
  refine ⟨by decide, by decide, by decide, by decide,
    cutter_truncation_shape _ _ (by decide) (by decide) (by decide) (by decide)⟩

/-- Witness for C10 with a concrete autograder and test case. -/
theorem add_test_name_prefix_witness :
    (∀ u ∈ (addTest ⟨"PA1", []⟩ ⟨"Test 1"⟩).testCases,
        ∃ orig, u.name = "PA1" ++ ": " ++ orig)
      ∧ (addTest ⟨"PA1", []⟩ ⟨"Test 1"⟩).testCases.getLast?
          = some ⟨"PA1" ++ ": " ++ "Test 1"⟩ := by
  have h := add_test_name_prefix ⟨"PA1", []⟩ ⟨"Test 1"⟩ (by simp)
  exact ⟨h.1, h.2.1⟩

end Tritongrader
